import Mathlib

/-!
Verification of `pytorch_lightning/metrics/__init__.py`, the public-API
aggregator of the metrics subpackage.  The module consists of five
`from ... import ...` statements followed by three list literals:
`__classification_metrics`, `__regression_metrics` and
`__all__ = __regression_metrics + __classification_metrics + ["SklearnMetric"]`.

We embed the name lists directly, and model module initialization
(the execution of the import statements against an environment of
collaborator modules) as a fallible pure function returning `Except`.
-/

namespace PLMetrics

/-- Names imported from `pytorch_lightning.metrics.converters` (line 1 of the
source), in source order. -/
def convertersImports : List String := ["numpy_metric", "tensor_metric"]

/-- Names imported from `pytorch_lightning.metrics.metric` (line 2), in
source order. -/
def metricBaseImports : List String := ["Metric", "TensorMetric", "NumpyMetric"]

/-- Names imported from `pytorch_lightning.metrics.regression` (lines 3-8),
in source order. -/
def regressionImports : List String := ["MSE", "RMSE", "MAE", "RMSLE"]

/-- Names imported from `pytorch_lightning.metrics.classification`
(lines 9-24), in source order. -/
def classificationImports : List String :=
  ["Accuracy", "AveragePrecision", "ConfusionMatrix", "F1", "FBeta",
   "Recall", "ROC", "AUROC", "DiceCoefficient", "MulticlassPrecisionRecall",
   "MulticlassROC", "Precision", "PrecisionRecall", "IoU"]

/-- Names imported from `pytorch_lightning.metrics.sklearns` (lines 25-29),
in source order. -/
def sklearnsImports : List String := ["AUC", "PrecisionRecallCurve", "SklearnMetric"]

/-- The five import statements of the module, in source order: each is the
source module paired with the list of names imported from it. -/
def importStatements : List (String × List String) :=
  [("pytorch_lightning.metrics.converters", convertersImports),
   ("pytorch_lightning.metrics.metric", metricBaseImports),
   ("pytorch_lightning.metrics.regression", regressionImports),
   ("pytorch_lightning.metrics.classification", classificationImports),
   ("pytorch_lightning.metrics.sklearns", sklearnsImports)]

/-- All names bound in the module namespace by the import statements, in
binding order. -/
def importedNames : List String := (importStatements.map Prod.snd).flatten

/-- The `__classification_metrics` list literal (source lines 31-48),
verbatim and in source order. -/
def __classification_metrics : List String :=
  ["AUC", "AUROC", "Accuracy", "AveragePrecision", "ConfusionMatrix",
   "DiceCoefficient", "F1", "FBeta", "MulticlassPrecisionRecall",
   "MulticlassROC", "Precision", "PrecisionRecall", "PrecisionRecallCurve",
   "ROC", "Recall", "IoU"]

/-- The `__regression_metrics` list literal (source lines 49-54), verbatim
and in source order. -/
def __regression_metrics : List String := ["MSE", "RMSE", "MAE", "RMSLE"]

/-- The `__all__` manifest (source line 55):
`__regression_metrics + __classification_metrics + ["SklearnMetric"]`. -/
def __all__ : List String :=
  __regression_metrics ++ __classification_metrics ++ ["SklearnMetric"]

/-- The result of a successful module load: the namespace as bound by
the five imports, and the three module-level list constants. -/
structure LoadedModule where
  namespaceNames : List String
  regression_metrics : List String
  classification_metrics : List String
  all : List String
deriving DecidableEq, Repr

/-- Executes one `from mod import n1, n2, ...` statement against an
environment `env` mapping a module name to the names it provides.  Binds the
names in order; the first name `mod` does not provide raises a
missing-symbol error `(mod, name)`, as a Python `ImportError` would. -/
def importNames (env : String → List String) (mod : String) :
    List String → Except (String × String) (List String)
  | [] => Except.ok []
  | n :: ns =>
      if n ∈ env mod then
        (importNames env mod ns).map (fun bs => n :: bs)
      else
        Except.error (mod, n)

/-- Executes a list of import statements in order, accumulating the bound
names; the first missing symbol aborts the whole load. -/
def runImports (env : String → List String) :
    List (String × List String) → Except (String × String) (List String)
  | [] => Except.ok []
  | (mod, names) :: rest =>
      match importNames env mod names with
      | Except.error e => Except.error e
      | Except.ok bs =>
          match runImports env rest with
          | Except.error e => Except.error e
          | Except.ok bs2 => Except.ok (bs ++ bs2)

/-- Module initialization: run the five import statements of
`pytorch_lightning/metrics/__init__.py` against `env`; on success the three
list constants are built exactly as in the source.  Any missing symbol
propagates as the load result. -/
def loadModule (env : String → List String) :
    Except (String × String) LoadedModule :=
  match runImports env importStatements with
  | Except.error e => Except.error e
  | Except.ok bound =>
      Except.ok
        { namespaceNames := bound
          regression_metrics := __regression_metrics
          classification_metrics := __classification_metrics
          all := __regression_metrics ++ __classification_metrics ++ ["SklearnMetric"] }

/-- `true` iff module initialization completes without a missing-symbol
error. -/
def loadSucceeds (env : String → List String) : Bool :=
  match loadModule env with
  | Except.ok _ => true
  | Except.error _ => false

/-- Helper: a single missing symbol makes the corresponding import
statement fail with a missing-symbol error. -/
theorem importNames_missing (env : String → List String) (mod : String) :
    ∀ (names : List String) (n : String), n ∈ names → n ∉ env mod →
    ∃ e, importNames env mod names = Except.error e := by
  intro names
  induction names with
  | nil => intro n h; cases h
  | cons m ns ih =>
    intro n hn hmiss
    by_cases hm : m ∈ env mod
    · rcases List.mem_cons.mp hn with rfl | hn2
      · exact absurd hm hmiss
      · obtain ⟨e, he⟩ := ih n hn2 hmiss
        exact ⟨e, by simp [importNames, hm, he, Except.map]⟩
    · exact ⟨(mod, m), by simp [importNames, hm]⟩

/-- Helper: if any statement in a list of import statements asks a module
for a symbol the environment does not provide, running the whole list fails
with a missing-symbol error. -/
theorem runImports_missing (env : String → List String) :
    ∀ (stmts : List (String × List String)) (mod : String)
      (names : List String) (n : String),
    (mod, names) ∈ stmts → n ∈ names → n ∉ env mod →
    ∃ e, runImports env stmts = Except.error e := by
  intro stmts
  induction stmts with
  | nil => intro _ _ _ h; cases h
  | cons p rest ih =>
    intro mod names n hp hn hmiss
    obtain ⟨pm, pn⟩ := p
    rcases List.mem_cons.mp hp with heq | hp2
    · injection heq with h1 h2
      subst h1; subst h2
      obtain ⟨e, he⟩ := importNames_missing env mod names n hn hmiss
      exact ⟨e, by simp [runImports, he]⟩
    · cases hi : importNames env pm pn with
      | error e => exact ⟨e, by simp [runImports, hi]⟩
      | ok bs =>
        obtain ⟨e, he⟩ := ih mod names n hp2 hn hmiss
        exact ⟨e, by simp [runImports, hi, he]⟩

end PLMetrics

open PLMetrics

/-- C1: the exported manifest `__all__` equals the regression metric-name
list, then the classification metric-name list, then exactly the one extra
name `SklearnMetric`; concretely it is the resulting 21-name list. -/
theorem all_is_regression_then_classification_then_sklearn :
    __all__ = __regression_metrics ++ __classification_metrics ++ ["SklearnMetric"] ∧
    __all__ =
      ["MSE", "RMSE", "MAE", "RMSLE",
       "AUC", "AUROC", "Accuracy", "AveragePrecision", "ConfusionMatrix",
       "DiceCoefficient", "F1", "FBeta", "MulticlassPrecisionRecall",
       "MulticlassROC", "Precision", "PrecisionRecall", "PrecisionRecallCurve",
       "ROC", "Recall", "IoU", "SklearnMetric"] := by
  constructor <;> rfl

/-- C2: the regression metric-name list, in order, is exactly
`["MSE", "RMSE", "MAE", "RMSLE"]`. -/
theorem regression_metrics_exact :
    __regression_metrics = ["MSE", "RMSE", "MAE", "RMSLE"] := rfl

/-- C3: the classification metric-name list has exactly 16 names and
contains both `AUC` and `PrecisionRecallCurve`, although those two symbols
are imported from the sklearns provider and not from the classification
provider. -/
theorem classification_metrics_sixteen_with_sklearn_names :
    __classification_metrics.length = 16 ∧
    "AUC" ∈ __classification_metrics ∧
    "PrecisionRecallCurve" ∈ __classification_metrics ∧
    "AUC" ∈ sklearnsImports ∧
    "PrecisionRecallCurve" ∈ sklearnsImports ∧
    "AUC" ∉ classificationImports ∧
    "PrecisionRecallCurve" ∉ classificationImports := by
  decide

/-- C4: no name occurs twice in the manifest `__all__`. -/
theorem all_names_unique : __all__.Nodup := by decide

/-- C5: the manifest length is the regression list length plus the
classification list length plus one, namely 4 + 16 + 1 = 21. -/
theorem all_length_is_sum :
    __all__.length = __regression_metrics.length + __classification_metrics.length + 1 ∧
    __regression_metrics.length = 4 ∧
    __classification_metrics.length = 16 ∧
    __all__.length = 21 := by
  decide

/-- C6: every name in the manifest `__all__` is bound by one of the import
statements: no dangling export names. -/
theorem all_subset_imported : __all__ ⊆ importedNames := by decide

/-- C7: the module imports exactly the interface symbols required of each
collaborator: the four regression names, the fourteen classification names,
the three sklearns names, the two conversion helpers and the three base
metric types, each in the stated order. -/
theorem imports_match_required_interfaces :
    regressionImports = ["MSE", "RMSE", "MAE", "RMSLE"] ∧
    classificationImports =
      ["Accuracy", "AveragePrecision", "ConfusionMatrix", "F1", "FBeta",
       "Recall", "ROC", "AUROC", "DiceCoefficient", "MulticlassPrecisionRecall",
       "MulticlassROC", "Precision", "PrecisionRecall", "IoU"] ∧
    sklearnsImports = ["AUC", "PrecisionRecallCurve", "SklearnMetric"] ∧
    convertersImports = ["numpy_metric", "tensor_metric"] ∧
    metricBaseImports = ["Metric", "TensorMetric", "NumpyMetric"] := by
  decide

/-- C8: if any collaborator module fails to provide an expected symbol,
module initialization fails with a missing-symbol error: the load never
completes, so no manifest (empty or otherwise) is produced. -/
theorem load_fails_on_missing_symbol (env : String → List String)
    (mod : String) (names : List String) (n : String)
    (hstmt : (mod, names) ∈ importStatements) (hn : n ∈ names)
    (hmiss : n ∉ env mod) :
    loadSucceeds env = false := by
  obtain ⟨e, he⟩ := runImports_missing env importStatements mod names n hstmt hn hmiss
  simp [loadSucceeds, loadModule, he]

/-- C8 witness: against an environment providing no symbols at all, the
load of the module fails. -/
theorem load_fails_on_missing_symbol_witness :
    loadSucceeds (fun _ => []) = false :=
  load_fails_on_missing_symbol (fun _ => [])
    "pytorch_lightning.metrics.converters" convertersImports "numpy_metric"
    (by decide) (by decide) (by decide)

/-- C9: the name lists and the manifest are built exactly once at load and
never mutated: every successful load yields the same constant lists, and in
particular every read of the manifest observes the same 21-element list. -/
theorem loaded_module_lists_constant (env : String → List String)
    (m : LoadedModule) (h : loadModule env = Except.ok m) :
    m.regression_metrics = __regression_metrics ∧
    m.classification_metrics = __classification_metrics ∧
    m.all = __all__ ∧
    m.all.length = 21 := by
  unfold loadModule at h
  cases hr : runImports env importStatements with
  | error e => rw [hr] at h; cases h
  | ok bound =>
    rw [hr] at h
    cases h
    exact ⟨rfl, rfl, rfl, rfl⟩

/-- C9 witness: a concrete successful load, against an environment in which
every collaborator provides all the imported names, observes exactly the
constant lists and the 21-element manifest. -/
theorem loaded_module_lists_constant_witness :
    (LoadedModule.mk importedNames __regression_metrics __classification_metrics
        __all__).regression_metrics = __regression_metrics ∧
    (LoadedModule.mk importedNames __regression_metrics __classification_metrics
        __all__).classification_metrics = __classification_metrics ∧
    (LoadedModule.mk importedNames __regression_metrics __classification_metrics
        __all__).all = __all__ ∧
    (LoadedModule.mk importedNames __regression_metrics __classification_metrics
        __all__).all.length = 21 :=
  loaded_module_lists_constant (fun _ => importedNames)
    (LoadedModule.mk importedNames __regression_metrics __classification_metrics __all__)
    (by rfl)

/-- C10: the five helper symbols `numpy_metric`, `tensor_metric`, `Metric`,
`TensorMetric`, `NumpyMetric` are imported into the namespace but absent
from `__all__`, and `__all__` consists of the 21 metric names only, so a
wildcard import governed by the manifest exposes neither the conversion
helpers nor the base metric types. -/
theorem helpers_imported_but_not_exported :
    ("numpy_metric" ∈ importedNames ∧ "numpy_metric" ∉ __all__) ∧
    ("tensor_metric" ∈ importedNames ∧ "tensor_metric" ∉ __all__) ∧
    ("Metric" ∈ importedNames ∧ "Metric" ∉ __all__) ∧
    ("TensorMetric" ∈ importedNames ∧ "TensorMetric" ∉ __all__) ∧
    ("NumpyMetric" ∈ importedNames ∧ "NumpyMetric" ∉ __all__) ∧
    __all__.length = 21 ∧
    __all__ ⊆ importedNames.filter
      (fun n => n ∉ ["numpy_metric", "tensor_metric", "Metric", "TensorMetric", "NumpyMetric"]) := by
  decide

